import Mathlib

/-!
Verification of the `good-speak` moderation gateway
(`src/good-speak/src/app/api/moderate/route.js`, `POST` handler).

The handler is shallowly embedded as a pure function of three inputs:
the result of parsing the request body, the outcome of the toxicity-scoring
(`Perspective`) fetch, and the outcome of the text-generation (`XAI`) fetch.
A fetch outcome is either a thrown error (network rejection or an
unparseable response body — both land in the handler's single `catch`)
or a parsed JSON value.  JavaScript values are modelled by the `JsonVal`
type below, with JS truthiness, property access (returning `none` for
`undefined`), `||` defaulting, optional chaining `?.`, and numeric
coercion for the `>` comparison (numbers are rationals; object keys are
assumed unique, as produced by `JSON.parse`).
-/

namespace GoodSpeak

/-- A JavaScript/JSON value as it appears in the handler.  `undefined` is
represented as `Option.none` at use sites, not as a constructor. -/
inductive JsonVal : Type where
  | null : JsonVal
  | bool (b : Bool) : JsonVal
  | num (x : ℚ) : JsonVal
  | str (s : String) : JsonVal
  | arr (elems : List JsonVal) : JsonVal
  | obj (fields : List (String × JsonVal)) : JsonVal

namespace JsonVal

/-- JS truthiness of a defined value: `null`, `false`, `0` and `""` are
falsy; every object and array is truthy.  (`NaN` does not arise in the
rational model.) -/
def truthy : JsonVal → Bool
  | null => false
  | bool b => b
  | num x => x ≠ 0
  | str s => s ≠ ""
  | arr _ => true
  | obj _ => true

end JsonVal

/-- Truthiness of a possibly-`undefined` value (`none` = `undefined`). -/
def truthyOpt : Option JsonVal → Bool
  | none => false
  | some v => v.truthy

/-- Property access `v.k` on a defined, non-null base: `undefined`
(`none`) unless `v` is an object with key `k`.  Arrays and primitives
have none of the keys the handler reads. -/
def jsGet : JsonVal → String → Option JsonVal
  | JsonVal.obj fields, k => (fields.find? (fun p => p.1 = k)).map Prod.snd
  | _, _ => none

/-- `X || d` where `X` may be `undefined`: keep `X` when defined and
truthy, otherwise the default `d`. -/
def jsOr (v : Option JsonVal) (d : JsonVal) : JsonVal :=
  match v with
  | some x => if x.truthy then x else d
  | none => d

/-- Optional chaining `X?.k`: `undefined` when `X` is `undefined` or
`null`, otherwise property access. -/
def jsOptChain (v : Option JsonVal) (k : String) : Option JsonVal :=
  match v with
  | none => none
  | some JsonVal.null => none
  | some x => jsGet x k

/-- Optional chaining `X?.[0]`: `undefined` when `X` is `undefined` or
`null`; first element of an array; first character of a non-empty string
(UTF-16 indexing approximated by the first character); key `"0"` of an
object; `undefined` on other primitives. -/
def jsOptIndexZero : Option JsonVal → Option JsonVal
  | none => none
  | some JsonVal.null => none
  | some (JsonVal.arr elems) => elems.head?
  | some (JsonVal.str s) =>
      if s.isEmpty then none else some (JsonVal.str (String.singleton s.front))
  | some (JsonVal.obj fields) => (fields.find? (fun p => p.1 = "0")).map Prod.snd
  | some _ => none

/-- All characters are decimal digits. -/
def allDigits (cs : List Char) : Bool := cs.all Char.isDigit

/-- Value of a digit string. -/
def digitsToNat (cs : List Char) : ℕ :=
  cs.foldl (fun a c => a * 10 + (c.toNat - 48)) 0

/-- JS `ToNumber` on a string (`none` = `NaN`), restricted to the plain
decimal forms `[+|-] digits [. digits]` after trimming; the empty string
is `0`.  Exponent, hex, binary and infinity forms — which no claim
exercises — are mapped to `NaN`. -/
def jsStringToNumber (s : String) : Option ℚ :=
  let t := s.trim
  if t = "" then some 0 else
  let su : ℚ × String :=
    if t.startsWith "-" then (-1, t.drop 1)
    else if t.startsWith "+" then (1, t.drop 1)
    else (1, t)
  match (su.2.splitOn ".") with
  | [ip] =>
      if ip ≠ "" ∧ allDigits ip.toList then
        some (su.1 * (digitsToNat ip.toList : ℚ))
      else none
  | [ip, fp] =>
      if (ip ≠ "" ∨ fp ≠ "") ∧ allDigits ip.toList ∧ allDigits fp.toList then
        some (su.1 * ((digitsToNat ip.toList : ℚ) +
          (digitsToNat fp.toList : ℚ) / (10 ^ fp.length)))
      else none
  | _ => none

/-- JS `ToNumber` (`none` = `NaN`).  Arrays coerce through their string
form: `[]` is `0`, a singleton coerces like its element; longer arrays
and plain objects are `NaN`. -/
def jsToNumber : JsonVal → Option ℚ
  | JsonVal.null => some 0
  | JsonVal.bool b => some (if b then 1 else 0)
  | JsonVal.num x => some x
  | JsonVal.str s => jsStringToNumber s
  | JsonVal.arr [] => some 0
  | JsonVal.arr [e] => jsToNumber e
  | JsonVal.arr _ => none
  | JsonVal.obj _ => none

/-- JS `v > t` against a numeric literal: `ToNumber` then compare;
false when `NaN`. -/
def jsGtNum (v : JsonVal) (t : ℚ) : Bool :=
  match jsToNumber v with
  | some x => t < x
  | none => false

/-- `const THRESHOLD = 0.7;` (`mkRat 7 10 = 7/10`; written with `mkRat`
so that the kernel can evaluate comparisons on concrete scores). -/
def THRESHOLD : ℚ := mkRat 7 10

/-- Outcome of one `await fetch(...); await resp.json()` pair: `throw`
when the fetch rejects (network failure) or the body is unparseable —
both raise and reach the handler's `catch` — and `ok data` when a JSON
value was obtained (any HTTP status: `resp.json()` is called without an
`ok` check). -/
inductive FetchResult : Type where
  | throw : FetchResult
  | ok (data : JsonVal) : FetchResult

/-- The handler's HTTP response: `badRequest e` is
`NextResponse.json({error: e, ...}, {status: 400})`; `verdict` is the
200 response `{flagged, toxicity, suggestion}`. -/
inductive HandlerResult : Type where
  | badRequest (error : String) : HandlerResult
  | verdict (flagged : Bool) (toxicity : JsonVal) (suggestion : JsonVal) : HandlerResult

/-- HTTP status of a handler response. -/
def statusOf : HandlerResult → ℕ
  | HandlerResult.badRequest _ => 400
  | HandlerResult.verdict _ _ _ => 200

/-- `(((p_data || {}).attributeScores || {}).TOXICITY || {}).summaryScore?.value` -/
def summaryScoreValue (p_data : JsonVal) : Option JsonVal :=
  let s1 := jsOr (some p_data) (JsonVal.obj [])
  let s2 := jsOr (jsGet s1 "attributeScores") (JsonVal.obj [])
  let s3 := jsOr (jsGet s2 "TOXICITY") (JsonVal.obj [])
  jsOptChain (jsGet s3 "summaryScore") "value"

/-- `xai_data?.choices?.[0]?.message?.content` -/
def xaiContentValue (xai_data : JsonVal) : Option JsonVal :=
  jsOptChain (jsOptChain (jsOptIndexZero (jsOptChain (some xai_data) "choices"))
    "message") "content"

/-- `const { username, message } = body || {};` — the `username` binding
(`none` = `undefined`). -/
def usernameOf (body : JsonVal) : Option JsonVal :=
  jsGet (jsOr (some body) (JsonVal.obj [])) "username"

/-- `const { username, message } = body || {};` — the `message` binding. -/
def messageOf (body : JsonVal) : Option JsonVal :=
  jsGet (jsOr (some body) (JsonVal.obj [])) "message"

/-- `const toxicity = (...).summaryScore?.value || 0.0;` -/
def toxicityFrom (p_data : JsonVal) : JsonVal :=
  jsOr (summaryScoreValue p_data) (JsonVal.num 0)

/-- `suggestion = xai_data?.choices?.[0]?.message?.content || null;` -/
def suggestionFrom (xai_data : JsonVal) : JsonVal :=
  jsOr (xaiContentValue xai_data) JsonVal.null

/-- The `POST` handler of `route.js` as a pure function.  `bodyParse` is
the result of `await request.json()` (`none` when it throws, reaching the
`catch`).  Returns the HTTP response together with two flags recording
whether the Perspective fetch and the XAI fetch were issued. -/
def handlePost (bodyParse : Option JsonVal)
    (pFetch xFetch : FetchResult) : HandlerResult × Bool × Bool :=
  match bodyParse with
  | none => (HandlerResult.badRequest "Invalid request", false, false)
  | some body =>
    if !truthyOpt (usernameOf body) || !truthyOpt (messageOf body) then
      (HandlerResult.badRequest "Missing username or message", false, false)
    else
      match pFetch with
      | FetchResult.throw => (HandlerResult.badRequest "Invalid request", true, false)
      | FetchResult.ok p_data =>
        if jsGtNum (toxicityFrom p_data) THRESHOLD then
          match xFetch with
          | FetchResult.throw =>
              (HandlerResult.badRequest "Invalid request", true, true)
          | FetchResult.ok xai_data =>
              (HandlerResult.verdict true (toxicityFrom p_data)
                (suggestionFrom xai_data), true, true)
        else
          (HandlerResult.verdict false (toxicityFrom p_data) JsonVal.null, true, false)

/-- The `flagged` field of a 200 response. -/
def flaggedOf : HandlerResult → Option Bool
  | HandlerResult.verdict f _ _ => some f
  | _ => none

/-- The `toxicity` field of a 200 response. -/
def toxicityOf : HandlerResult → Option JsonVal
  | HandlerResult.verdict _ t _ => some t
  | _ => none

/-- The `suggestion` field of a 200 response. -/
def suggestionOf : HandlerResult → Option JsonVal
  | HandlerResult.verdict _ _ s => some s
  | _ => none

/-! ### Concrete fixtures used by witnesses and counterexamples -/

/-- A well-formed request body with truthy `username` and `message`. -/
def goodBody : JsonVal :=
  JsonVal.obj [("username", JsonVal.str "u1"), ("message", JsonVal.str "hello")]

/-- A Perspective response carrying `summaryScore.value = x`. -/
def pTox (x : ℚ) : JsonVal :=
  JsonVal.obj [("attributeScores", JsonVal.obj [("TOXICITY",
    JsonVal.obj [("summaryScore", JsonVal.obj [("value", JsonVal.num x)])])])]

/-- An XAI response whose first choice has content `s`. -/
def xaiWith (s : String) : JsonVal :=
  JsonVal.obj [("choices", JsonVal.arr [JsonVal.obj [("message",
    JsonVal.obj [("content", JsonVal.str s)])]])]

/-- An XAI response with an empty `choices` list. -/
def xaiEmptyChoices : JsonVal := JsonVal.obj [("choices", JsonVal.arr [])]

/-! ### Helper lemmas -/

/-- When both fields are truthy, the handler reduces to the fetch
pipeline. -/
theorem handlePost_valid (b : JsonVal) (pf xf : FetchResult)
    (hu : truthyOpt (usernameOf b) = true) (hm : truthyOpt (messageOf b) = true) :
    handlePost (some b) pf xf =
      match pf with
      | FetchResult.throw => (HandlerResult.badRequest "Invalid request", true, false)
      | FetchResult.ok p_data =>
        if jsGtNum (toxicityFrom p_data) THRESHOLD then
          match xf with
          | FetchResult.throw =>
              (HandlerResult.badRequest "Invalid request", true, true)
          | FetchResult.ok xai_data =>
              (HandlerResult.verdict true (toxicityFrom p_data)
                (suggestionFrom xai_data), true, true)
        else
          (HandlerResult.verdict false (toxicityFrom p_data) JsonVal.null, true, false) := by
  simp [handlePost, hu, hm]

/-- A truthy value at the score path passes through `|| 0.0` unchanged. -/
theorem toxicityFrom_of_truthy (p_data v : JsonVal)
    (h : summaryScoreValue p_data = some v) (hv : v.truthy = true) :
    toxicityFrom p_data = v := by
  simp [toxicityFrom, jsOr, h, hv]

/-- A missing or falsy value at the score path degrades to `0.0`. -/
theorem toxicityFrom_of_falsy (p_data : JsonVal)
    (h : truthyOpt (summaryScoreValue p_data) = false) :
    toxicityFrom p_data = JsonVal.num 0 := by
  cases hs : summaryScoreValue p_data with
  | none => simp [toxicityFrom, jsOr, hs]
  | some v =>
    rw [hs] at h
    simp only [truthyOpt] at h
    simp [toxicityFrom, jsOr, hs, h]

/-- A missing or falsy content value degrades the suggestion to `null`. -/
theorem suggestionFrom_of_falsy (d : JsonVal)
    (h : truthyOpt (xaiContentValue d) = false) :
    suggestionFrom d = JsonVal.null := by
  cases hs : xaiContentValue d with
  | none => simp [suggestionFrom, jsOr, hs]
  | some v =>
    rw [hs] at h
    simp only [truthyOpt] at h
    simp [suggestionFrom, jsOr, hs, h]

/-- The suggestion is `null` exactly when the content path is missing or
falsy. -/
theorem suggestionFrom_eq_null_iff (d : JsonVal) :
    suggestionFrom d = JsonVal.null ↔ truthyOpt (xaiContentValue d) = false := by
  cases hs : xaiContentValue d with
  | none => simp [suggestionFrom, jsOr, hs, truthyOpt]
  | some v =>
    by_cases hv : v.truthy = true
    · have hne : v ≠ JsonVal.null := by
        intro e
        rw [e] at hv
        simp [JsonVal.truthy] at hv
      simp [suggestionFrom, jsOr, hs, hv, truthyOpt, hne]
    · have hv' : v.truthy = false := by
        revert hv
        cases v.truthy <;> simp
      simp [suggestionFrom, jsOr, hs, hv', truthyOpt]

/-- A numeric score at most the threshold does not trip the comparison. -/
theorem jsGtNum_eq_false_of_le (t : JsonVal) (q : ℚ)
    (hq : jsToNumber t = some q) (h : q ≤ THRESHOLD) :
    jsGtNum t THRESHOLD = false := by
  simp [jsGtNum, hq]
  exact h

/-- A numeric score above the threshold trips the comparison. -/
theorem jsGtNum_eq_true_of_lt (t : JsonVal) (q : ℚ)
    (hq : jsToNumber t = some q) (h : THRESHOLD < q) :
    jsGtNum t THRESHOLD = true := by
  simp [jsGtNum, hq]
  exact h

/-- A request body `{username: u, message: m}`. -/
def pairBody (u m : JsonVal) : JsonVal :=
  JsonVal.obj [("username", u), ("message", m)]

theorem usernameOf_pairBody (u m : JsonVal) : usernameOf (pairBody u m) = some u := rfl

theorem messageOf_pairBody (u m : JsonVal) : messageOf (pairBody u m) = some m := rfl

/-! ### Claims -/

/-- Claim C1: every response the handler answers with status 200 carries a
verdict in which `flagged` equals the result of the JS comparison
`toxicity > 0.7`; in particular, whenever the returned toxicity is a
numeric value `q`, `flagged` is `true` exactly when `q` strictly exceeds
the threshold `0.7`. -/
theorem flagged_iff_toxicity_gt_threshold (bp : Option JsonVal)
    (pf xf : FetchResult) (f : Bool) (t s : JsonVal)
    (h : (handlePost bp pf xf).1 = HandlerResult.verdict f t s) :
    f = jsGtNum t THRESHOLD ∧
      ∀ q : ℚ, jsToNumber t = some q → (f = true ↔ THRESHOLD < q) := by
  cases bp with
  | none => simp [handlePost] at h
  | some b =>
    by_cases hv : (!truthyOpt (usernameOf b) || !truthyOpt (messageOf b)) = true
    · simp [handlePost, hv] at h
    · simp only [Bool.or_eq_true, Bool.not_eq_true', not_or, Bool.not_eq_false] at hv
      rw [handlePost_valid b pf xf hv.1 hv.2] at h
      cases pf with
      | throw => simp at h
      | ok p_data =>
        by_cases ht : jsGtNum (toxicityFrom p_data) THRESHOLD = true
        · cases xf with
          | throw => simp [ht] at h
          | ok d =>
            simp only [ht, if_true] at h
            injection h with h1 h2 h3
            subst h1; subst h2; subst h3
            refine ⟨ht.symm, fun q hq => ?_⟩
            simp only [jsGtNum, hq] at ht
            simpa using ht
        · have ht' : jsGtNum (toxicityFrom p_data) THRESHOLD = false := by
            revert ht; cases jsGtNum (toxicityFrom p_data) THRESHOLD <;> simp
          simp only [ht', if_false] at h
          injection h with h1 h2 h3
          subst h1; subst h2; subst h3
          refine ⟨ht'.symm, fun q hq => ?_⟩
          simp only [jsGtNum, hq] at ht'
          simpa using ht'

/-- Witness for C1 at a concrete flagged request. -/
theorem flagged_iff_toxicity_gt_threshold_witness :
    (handlePost (some goodBody) (FetchResult.ok (pTox (mkRat 8 10)))
        (FetchResult.ok (xaiWith "please"))).1
      = HandlerResult.verdict true (JsonVal.num (mkRat 8 10)) (JsonVal.str "please") ∧
    (true = jsGtNum (JsonVal.num (mkRat 8 10)) THRESHOLD ∧
      ∀ q : ℚ, jsToNumber (JsonVal.num (mkRat 8 10)) = some q →
        (true = true ↔ THRESHOLD < q)) :=
  ⟨rfl, flagged_iff_toxicity_gt_threshold (some goodBody)
    (FetchResult.ok (pTox (mkRat 8 10))) (FetchResult.ok (xaiWith "please"))
    true (JsonVal.num (mkRat 8 10)) (JsonVal.str "please") rfl⟩

/-- Claim C4: when `username` or `message` is missing (`undefined`) or the
empty string, the handler returns the 400 `Missing username or message`
response and neither external service is called. -/
theorem missing_or_empty_field_rejected_no_calls (b : JsonVal)
    (pf xf : FetchResult)
    (h : usernameOf b = none ∨ usernameOf b = some (JsonVal.str "") ∨
      messageOf b = none ∨ messageOf b = some (JsonVal.str "")) :
    handlePost (some b) pf xf
      = (HandlerResult.badRequest "Missing username or message", false, false) := by
  have hcond : (!truthyOpt (usernameOf b) || !truthyOpt (messageOf b)) = true := by
    rcases h with h | h | h | h <;> simp [h, truthyOpt, JsonVal.truthy]
  simp [handlePost, hcond]

/-- Witness for C4 at a body whose `message` field is absent. -/
theorem missing_or_empty_field_rejected_no_calls_witness :
    (usernameOf (JsonVal.obj [("username", JsonVal.str "u1")]) = none ∨
      usernameOf (JsonVal.obj [("username", JsonVal.str "u1")]) = some (JsonVal.str "") ∨
      messageOf (JsonVal.obj [("username", JsonVal.str "u1")]) = none ∨
      messageOf (JsonVal.obj [("username", JsonVal.str "u1")]) = some (JsonVal.str "")) ∧
    handlePost (some (JsonVal.obj [("username", JsonVal.str "u1")]))
        (FetchResult.ok (pTox (mkRat 9 10))) FetchResult.throw
      = (HandlerResult.badRequest "Missing username or message", false, false) :=
  ⟨Or.inr (Or.inr (Or.inl rfl)),
    missing_or_empty_field_rejected_no_calls _ _ _ (Or.inr (Or.inr (Or.inl rfl)))⟩

/-- Claim C6: when the toxicity value is numeric and at most `0.7`
(including exactly `0.7`), the verdict is `flagged = false` with a `null`
suggestion and the generation service is never called, whatever the
generation service would have done. -/
theorem below_threshold_not_flagged_no_generation (b p_data : JsonVal)
    (xf : FetchResult) (q : ℚ)
    (hu : truthyOpt (usernameOf b) = true) (hm : truthyOpt (messageOf b) = true)
    (hq : jsToNumber (toxicityFrom p_data) = some q) (hle : q ≤ THRESHOLD) :
    handlePost (some b) (FetchResult.ok p_data) xf
      = (HandlerResult.verdict false (toxicityFrom p_data) JsonVal.null, true, false) := by
  rw [handlePost_valid b (FetchResult.ok p_data) xf hu hm]
  simp [jsGtNum_eq_false_of_le _ q hq hle]

/-- Witness for C6 at a score of exactly the threshold `0.7`, with a
generation stub that would have answered. -/
theorem below_threshold_not_flagged_no_generation_witness :
    handlePost (some goodBody) (FetchResult.ok (pTox (mkRat 7 10)))
        (FetchResult.ok (xaiWith "unused"))
      = (HandlerResult.verdict false (toxicityFrom (pTox (mkRat 7 10))) JsonVal.null,
          true, false) :=
  below_threshold_not_flagged_no_generation goodBody (pTox (mkRat 7 10))
    (FetchResult.ok (xaiWith "unused")) (mkRat 7 10) rfl rfl rfl (by decide)

/-- Claim C7: for every parsed-or-unparseable body and every behaviour of
the two external services, the handler answers with status 200 or status
400 — never 429 and never any 5xx. -/
theorem status_only_200_or_400 (bp : Option JsonVal) (pf xf : FetchResult) :
    statusOf (handlePost bp pf xf).1 = 200 ∨ statusOf (handlePost bp pf xf).1 = 400 := by
  cases bp with
  | none => right; rfl
  | some b =>
    by_cases hv : (!truthyOpt (usernameOf b) || !truthyOpt (messageOf b)) = true
    · right; simp [handlePost, hv, statusOf]
    · simp only [Bool.or_eq_true, Bool.not_eq_true', not_or, Bool.not_eq_false] at hv
      rw [handlePost_valid b pf xf hv.1 hv.2]
      cases pf with
      | throw => right; rfl
      | ok p_data =>
        by_cases ht : jsGtNum (toxicityFrom p_data) THRESHOLD = true
        · cases xf with
          | throw => right; simp [ht, statusOf]
          | ok d => left; simp [ht, statusOf]
        · left; simp [ht, statusOf]

/-- Claim C8: two requests that differ only in a truthy `username` and see
identical external-service responses receive identical handler responses. -/
theorem username_noninterference (b1 b2 : JsonVal) (pf xf : FetchResult)
    (hu1 : truthyOpt (usernameOf b1) = true) (hu2 : truthyOpt (usernameOf b2) = true)
    (hm : messageOf b1 = messageOf b2) :
    handlePost (some b1) pf xf = handlePost (some b2) pf xf := by
  simp only [handlePost, hu1, hu2, hm]

/-- Witness for C8 with usernames `alice` and `bob` on the same message. -/
theorem username_noninterference_witness :
    handlePost (some (pairBody (JsonVal.str "alice") (JsonVal.str "same")))
        (FetchResult.ok (pTox (mkRat 8 10))) (FetchResult.ok (xaiWith "please"))
      = handlePost (some (pairBody (JsonVal.str "bob") (JsonVal.str "same")))
        (FetchResult.ok (pTox (mkRat 8 10))) (FetchResult.ok (xaiWith "please")) :=
  username_noninterference _ _ _ _ rfl rfl rfl

/-- Counterexample to C2 as stated: a network failure of the scoring
fetch raises, reaches the handler's `catch`, and yields the 400
`Invalid request` response — not a 200 verdict with toxicity `0.0`. -/
theorem scoring_throw_yields_400 :
    handlePost (some goodBody) FetchResult.throw (FetchResult.ok JsonVal.null)
      = (HandlerResult.badRequest "Invalid request", true, false) ∧
    statusOf (handlePost (some goodBody) FetchResult.throw
      (FetchResult.ok JsonVal.null)).1 ≠ 200 :=
  ⟨rfl, by decide⟩

/-- Claim C2 (amended): with truthy fields, when the scoring response is
received and parsed but the value at
`attributeScores.TOXICITY.summaryScore.value` is absent or falsy, the
handler substitutes toxicity `0.0` and returns a 200 verdict with
`flagged = false` (whatever the generation service would do); when the
scoring fetch rejects or its body is unparseable, the handler instead
returns the 400 `Invalid request` response. -/
theorem score_path_missing_fail_open (b p_data : JsonVal) (xf : FetchResult)
    (hu : truthyOpt (usernameOf b) = true) (hm : truthyOpt (messageOf b) = true)
    (hs : truthyOpt (summaryScoreValue p_data) = false) :
    handlePost (some b) (FetchResult.ok p_data) xf
      = (HandlerResult.verdict false (JsonVal.num 0) JsonVal.null, true, false) ∧
    handlePost (some b) FetchResult.throw xf
      = (HandlerResult.badRequest "Invalid request", true, false) := by
  have ht0 : toxicityFrom p_data = JsonVal.num 0 := toxicityFrom_of_falsy p_data hs
  constructor
  · rw [handlePost_valid b (FetchResult.ok p_data) xf hu hm]
    dsimp only
    rw [ht0]
    have hgt : jsGtNum (JsonVal.num 0) THRESHOLD = false := by decide
    simp [hgt]
  · rw [handlePost_valid b FetchResult.throw xf hu hm]

/-- Witness for C2 (amended) with a scoring response that parses to an
object holding no score. -/
theorem score_path_missing_fail_open_witness :
    handlePost (some goodBody) (FetchResult.ok (JsonVal.obj [("detail", JsonVal.str "err")]))
        (FetchResult.ok (xaiWith "unused"))
      = (HandlerResult.verdict false (JsonVal.num 0) JsonVal.null, true, false) ∧
    handlePost (some goodBody) FetchResult.throw (FetchResult.ok (xaiWith "unused"))
      = (HandlerResult.badRequest "Invalid request", true, false) :=
  score_path_missing_fail_open goodBody (JsonVal.obj [("detail", JsonVal.str "err")])
    (FetchResult.ok (xaiWith "unused")) rfl rfl rfl

/-- Counterexample to C3 as stated: with a toxicity of `0.8`, an
unreachable generation service (rejected fetch) raises, reaches the
`catch`, and yields the 400 `Invalid request` response — not a 200
verdict with `flagged = true` and `suggestion = null`. -/
theorem generation_throw_yields_400 :
    handlePost (some goodBody) (FetchResult.ok (pTox (mkRat 8 10))) FetchResult.throw
      = (HandlerResult.badRequest "Invalid request", true, true) ∧
    statusOf (handlePost (some goodBody) (FetchResult.ok (pTox (mkRat 8 10)))
      FetchResult.throw).1 ≠ 200 :=
  ⟨rfl, by decide⟩

/-- Claim C3 (amended): for a flagged request, when the generation
response is received and parsed but yields no completion (the content
path is absent or falsy, e.g. an empty `choices` list), the handler still
returns a 200 verdict with `flagged = true` and `suggestion = null`; when
the generation fetch rejects or its body is unparseable, the handler
instead returns the 400 `Invalid request` response. -/
theorem empty_completion_suggestion_null (b p_data d : JsonVal)
    (hu : truthyOpt (usernameOf b) = true) (hm : truthyOpt (messageOf b) = true)
    (ht : jsGtNum (toxicityFrom p_data) THRESHOLD = true)
    (hc : truthyOpt (xaiContentValue d) = false) :
    handlePost (some b) (FetchResult.ok p_data) (FetchResult.ok d)
      = (HandlerResult.verdict true (toxicityFrom p_data) JsonVal.null, true, true) ∧
    handlePost (some b) (FetchResult.ok p_data) FetchResult.throw
      = (HandlerResult.badRequest "Invalid request", true, true) := by
  constructor
  · rw [handlePost_valid b (FetchResult.ok p_data) (FetchResult.ok d) hu hm]
    simp [ht, suggestionFrom_of_falsy d hc]
  · rw [handlePost_valid b (FetchResult.ok p_data) FetchResult.throw hu hm]
    simp [ht]

/-- Witness for C3 (amended): scoring stub returns `0.8`, generation stub
returns an empty completion list. -/
theorem empty_completion_suggestion_null_witness :
    handlePost (some goodBody) (FetchResult.ok (pTox (mkRat 8 10)))
        (FetchResult.ok xaiEmptyChoices)
      = (HandlerResult.verdict true (toxicityFrom (pTox (mkRat 8 10))) JsonVal.null,
          true, true) ∧
    handlePost (some goodBody) (FetchResult.ok (pTox (mkRat 8 10))) FetchResult.throw
      = (HandlerResult.badRequest "Invalid request", true, true) :=
  empty_completion_suggestion_null goodBody (pTox (mkRat 8 10)) xaiEmptyChoices
    rfl rfl rfl rfl

/-- A second well-formed request body, used by the C5 counterexample. -/
def rudeBody : JsonVal :=
  JsonVal.obj [("username", JsonVal.str "u2"), ("message", JsonVal.str "you fool")]

/-- Counterexample to C5 as stated: with a toxicity of `0.96`, a failing
generation fetch does not produce a verdict with `flagged = true` and
`suggestion = null` — the raised error reaches the `catch` and the
handler answers 400. -/
theorem generation_throw_no_verdict :
    handlePost (some rudeBody) (FetchResult.ok (pTox (mkRat 96 100))) FetchResult.throw
      = (HandlerResult.badRequest "Invalid request", true, true) ∧
    flaggedOf (handlePost (some rudeBody) (FetchResult.ok (pTox (mkRat 96 100)))
      FetchResult.throw).1 = none :=
  ⟨rfl, rfl⟩

/-- Claim C5 (amended): for a request whose toxicity trips the threshold,
`flagged = true`; when the generation fetch rejects or its body is
unparseable the handler returns the 400 `Invalid request` response; when
the generation response parses, the verdict's suggestion is the first
choice's content when that content is truthy — in particular a non-empty
string content is returned verbatim — and `null` when the content path is
absent or falsy. -/
theorem flagged_suggestion_characterization (b p_data : JsonVal)
    (hu : truthyOpt (usernameOf b) = true) (hm : truthyOpt (messageOf b) = true)
    (ht : jsGtNum (toxicityFrom p_data) THRESHOLD = true) :
    handlePost (some b) (FetchResult.ok p_data) FetchResult.throw
      = (HandlerResult.badRequest "Invalid request", true, true) ∧
    ∀ d : JsonVal,
      (handlePost (some b) (FetchResult.ok p_data) (FetchResult.ok d)).1
        = HandlerResult.verdict true (toxicityFrom p_data) (suggestionFrom d) ∧
      (suggestionFrom d = JsonVal.null ↔ truthyOpt (xaiContentValue d) = false) ∧
      ∀ s : String, xaiContentValue d = some (JsonVal.str s) → s ≠ "" →
        suggestionFrom d = JsonVal.str s := by
  constructor
  · rw [handlePost_valid b (FetchResult.ok p_data) FetchResult.throw hu hm]
    simp [ht]
  · intro d
    refine ⟨?_, suggestionFrom_eq_null_iff d, ?_⟩
    · rw [handlePost_valid b (FetchResult.ok p_data) (FetchResult.ok d) hu hm]
      simp [ht]
    · intro s hcs hsne
      simp [suggestionFrom, jsOr, hcs, JsonVal.truthy, hsne]

/-- Witness for C5 (amended): toxicity `0.9`, generation stub answering
with the string `kindly`. -/
theorem flagged_suggestion_characterization_witness :
    (handlePost (some goodBody) (FetchResult.ok (pTox (mkRat 9 10))) FetchResult.throw
      = (HandlerResult.badRequest "Invalid request", true, true) ∧
    ∀ d : JsonVal,
      (handlePost (some goodBody) (FetchResult.ok (pTox (mkRat 9 10)))
          (FetchResult.ok d)).1
        = HandlerResult.verdict true (toxicityFrom (pTox (mkRat 9 10))) (suggestionFrom d) ∧
      (suggestionFrom d = JsonVal.null ↔ truthyOpt (xaiContentValue d) = false) ∧
      ∀ s : String, xaiContentValue d = some (JsonVal.str s) → s ≠ "" →
        suggestionFrom d = JsonVal.str s) ∧
    suggestionFrom (xaiWith "kindly") = JsonVal.str "kindly" :=
  ⟨flagged_suggestion_characterization goodBody (pTox (mkRat 9 10)) rfl rfl rfl, rfl⟩

/-- Claim C9: the required-field check is JS truthiness.  A body whose
`username` and `message` are any truthy values — string or not — passes
validation and the scoring service is contacted, while any falsy value in
either field (empty string, `0`, `false`, `null`, absent) produces the
400 `Missing username or message` response with no external call. -/
theorem field_check_is_truthiness (u m : JsonVal) (pf xf : FetchResult) :
    (u.truthy = true → m.truthy = true →
      (handlePost (some (pairBody u m)) pf xf).2.1 = true) ∧
    (u.truthy = false ∨ m.truthy = false →
      handlePost (some (pairBody u m)) pf xf
        = (HandlerResult.badRequest "Missing username or message", false, false)) := by
  constructor
  · intro hu hm
    have hu' : truthyOpt (usernameOf (pairBody u m)) = true := by
      rw [usernameOf_pairBody]; exact hu
    have hm' : truthyOpt (messageOf (pairBody u m)) = true := by
      rw [messageOf_pairBody]; exact hm
    rw [handlePost_valid (pairBody u m) pf xf hu' hm']
    cases pf with
    | throw => rfl
    | ok p_data =>
      by_cases ht : jsGtNum (toxicityFrom p_data) THRESHOLD = true
      · cases xf with
        | throw => simp [ht]
        | ok d => simp [ht]
      · simp [ht]
  · intro h
    have hcond : (!truthyOpt (usernameOf (pairBody u m)) ||
        !truthyOpt (messageOf (pairBody u m))) = true := by
      rcases h with h | h <;>
        simp [usernameOf_pairBody, messageOf_pairBody, truthyOpt, h]
    simp [handlePost, hcond]

/-- Witness for C9: a numeric `username` (`42`) passes validation and the
scoring service is contacted; `username = 0` and `message = false` are
each rejected as missing. -/
theorem field_check_is_truthiness_witness :
    (handlePost (some (pairBody (JsonVal.num 42) (JsonVal.str "hi")))
        FetchResult.throw FetchResult.throw).2.1 = true ∧
    handlePost (some (pairBody (JsonVal.num 0) (JsonVal.str "hi")))
        FetchResult.throw FetchResult.throw
      = (HandlerResult.badRequest "Missing username or message", false, false) ∧
    handlePost (some (pairBody (JsonVal.str "u3") (JsonVal.bool false)))
        FetchResult.throw FetchResult.throw
      = (HandlerResult.badRequest "Missing username or message", false, false) :=
  ⟨(field_check_is_truthiness (JsonVal.num 42) (JsonVal.str "hi")
      FetchResult.throw FetchResult.throw).1 (by decide) rfl,
    (field_check_is_truthiness (JsonVal.num 0) (JsonVal.str "hi")
      FetchResult.throw FetchResult.throw).2 (Or.inl (by decide)),
    (field_check_is_truthiness (JsonVal.str "u3") (JsonVal.bool false)
      FetchResult.throw FetchResult.throw).2 (Or.inr rfl)⟩

/-- Claim C10: the handler neither validates nor clamps the extracted
toxicity.  A truthy value at the score path is returned verbatim in the
verdict; a missing or falsy value — including a legitimate score of
exactly `0` — is replaced by `0.0`; and a numeric value above `1` passes
through and makes the verdict flagged. -/
theorem toxicity_passthrough_no_clamp (b p_data d : JsonVal)
    (hu : truthyOpt (usernameOf b) = true) (hm : truthyOpt (messageOf b) = true) :
    (∀ v : JsonVal, summaryScoreValue p_data = some v → v.truthy = true →
      toxicityOf (handlePost (some b) (FetchResult.ok p_data)
        (FetchResult.ok d)).1 = some v) ∧
    (truthyOpt (summaryScoreValue p_data) = false →
      toxicityOf (handlePost (some b) (FetchResult.ok p_data)
        (FetchResult.ok d)).1 = some (JsonVal.num 0)) ∧
    (∀ q : ℚ, jsToNumber (toxicityFrom p_data) = some q → 1 < q →
      flaggedOf (handlePost (some b) (FetchResult.ok p_data)
        (FetchResult.ok d)).1 = some true) := by
  rw [handlePost_valid b (FetchResult.ok p_data) (FetchResult.ok d) hu hm]
  dsimp only
  refine ⟨?_, ?_, ?_⟩
  · intro v hv hvt
    rw [toxicityFrom_of_truthy p_data v hv hvt]
    by_cases ht : jsGtNum v THRESHOLD = true
    · simp [ht, toxicityOf]
    · simp [ht, toxicityOf]
  · intro hf
    rw [toxicityFrom_of_falsy p_data hf]
    have hgt : jsGtNum (JsonVal.num 0) THRESHOLD = false := by decide
    simp [hgt, toxicityOf]
  · intro q hq h1
    have hth : THRESHOLD < q := lt_trans (by decide : THRESHOLD < 1) h1
    have ht := jsGtNum_eq_true_of_lt (toxicityFrom p_data) q hq hth
    simp [ht, flaggedOf]

/-- Witness for C10 at a score of `1.5`: passed through verbatim and
flagged. -/
theorem toxicity_passthrough_no_clamp_witness :
    ((∀ v : JsonVal, summaryScoreValue (pTox (mkRat 3 2)) = some v → v.truthy = true →
      toxicityOf (handlePost (some goodBody) (FetchResult.ok (pTox (mkRat 3 2)))
        (FetchResult.ok (xaiWith "calm"))).1 = some v) ∧
    (truthyOpt (summaryScoreValue (pTox (mkRat 3 2))) = false →
      toxicityOf (handlePost (some goodBody) (FetchResult.ok (pTox (mkRat 3 2)))
        (FetchResult.ok (xaiWith "calm"))).1 = some (JsonVal.num 0)) ∧
    (∀ q : ℚ, jsToNumber (toxicityFrom (pTox (mkRat 3 2))) = some q → 1 < q →
      flaggedOf (handlePost (some goodBody) (FetchResult.ok (pTox (mkRat 3 2)))
        (FetchResult.ok (xaiWith "calm"))).1 = some true)) ∧
    toxicityOf (handlePost (some goodBody) (FetchResult.ok (pTox (mkRat 3 2)))
      (FetchResult.ok (xaiWith "calm"))).1 = some (JsonVal.num (mkRat 3 2)) :=
  ⟨toxicity_passthrough_no_clamp goodBody (pTox (mkRat 3 2)) (xaiWith "calm") rfl rfl,
    rfl⟩

end GoodSpeak
